import Mathlib

/-!
Verification of the autonomous mining-truck controller.

This file is a shallow embedding of the repository's Python sources into
Lean 4.  Python floats are modelled as real numbers, the per-task bodies as
pure state-transformer functions, the shared vehicle state and the event
queues as explicit values threaded through those functions.  Each section
below names the source file it embeds.
-/

set_option maxHeartbeats 1000000

/-- Event types of the system, from `event_manager.py` (`EventType`). -/
inductive EventType
  | TEMPERATURE_FAULT
  | ELECTRICAL_FAULT
  | HYDRAULIC_FAULT
  | FAULT_CLEARED
  | MODE_CHANGED
  | EMERGENCY_STOP
  | EMERGENCY_RESET
  | TARGET_REACHED
  | SHUTDOWN
  | NEW_ROUTE
  deriving DecidableEq

/-- Events of `event_manager.py` (`Event`): type, payload and timestamp.
The payload dictionary is abstracted to a numeric code and the float
timestamp to a counter; neither is inspected by the queue operations. -/
structure Event where
  event_type : EventType
  data : Nat
  timestamp : Nat
  deriving DecidableEq

/-- Per-type FIFO queues of the event manager (`EventManager._events`,
a `defaultdict(list)` mapping each event type to its pending list). -/
def EventQueues := EventType → List Event

/-- Embeds `EventManager.emit`: builds the event and appends it at the end
of the queue of its type; other queues are untouched. -/
def emit (q : EventQueues) (t : EventType) (d ts : Nat) : EventQueues :=
  fun u => if u = t then q t ++ [⟨t, d, ts⟩] else q u

/-- Embeds `EventManager.check_event` (non-blocking): if the queue of the
requested type is non-empty, pops and returns its head, else returns none
and leaves every queue unchanged. -/
def check_event (q : EventQueues) (t : EventType) : Option Event × EventQueues :=
  match q t with
  | [] => (none, q)
  | e :: rest => (some e, fun u => if u = t then rest else q u)

/-- Embeds the non-blocking core of `EventManager.wait_for_event`: the
requested types are scanned in iteration order and the head of the first
non-empty queue is popped; `none` stands for the suspension/timeout path,
on which no queue changes. -/
def wait_for_event (q : EventQueues) : List EventType → Option Event × EventQueues
  | [] => (none, q)
  | t :: ts =>
    match q t with
    | [] => wait_for_event q ts
    | e :: rest => (some e, fun u => if u = t then rest else q u)

/-- Embeds `circular_buffer.py`: the `deque(maxlen=size)` is the list of
stored samples, oldest first, together with the capacity. -/
structure CircularBuffer (α : Type) where
  size : Nat
  buffer : List α

/-- Fresh buffer of a given capacity (`CircularBuffer.__init__`). -/
def CircularBuffer.empty (α : Type) (size : Nat) : CircularBuffer α :=
  ⟨size, []⟩

/-- Embeds `CircularBuffer.write`: `deque.append` with `maxlen` semantics
appends the sample and drops from the front whatever exceeds the capacity. -/
def CircularBuffer.write {α : Type} (b : CircularBuffer α) (d : α) : CircularBuffer α :=
  { b with buffer := (b.buffer ++ [d]).drop (b.buffer.length + 1 - b.size) }

/-- Embeds `CircularBuffer.read_latest`: returns `buffer[-1]` when the
buffer is non-empty, `None` otherwise; the buffer itself is not modified. -/
def CircularBuffer.read_latest {α : Type} (b : CircularBuffer α) : Option α :=
  b.buffer.getLast?

/-- Python list slice `l[-n:]` for a non-negative `n`: for `n = 0` the
start index `-0` equals `0`, so the whole list is returned; for `n ≥ 1`
the last `min n (length l)` elements are returned. -/
def pySliceLast {α : Type} (l : List α) (n : Nat) : List α :=
  if n = 0 then l else l.drop (l.length - n)

/-- Embeds `CircularBuffer.read_last_n`: `list(self._buffer)[-n:]` when the
buffer is non-empty, else the empty list. -/
def CircularBuffer.read_last_n {α : Type} (b : CircularBuffer α) (n : Nat) : List α :=
  if b.buffer.length > 0 then pySliceLast b.buffer n else []

/-- Embeds `CircularBuffer.read_all`. -/
def CircularBuffer.read_all {α : Type} (b : CircularBuffer α) : List α :=
  b.buffer

noncomputable section

open Real Classical

/-- Python `max(-1.0, min(1.0, v))`, the saturation used by
`ActuatorData.__post_init__` and `VehicleDynamics.update`. -/
def clampUnit (v : ℝ) : ℝ := max (-1) (min 1 v)

/-- Python `math.atan2 y x`, embedded as the argument of the complex number
with real part `x` and imaginary part `y` (both land in `[-π, π]`). -/
def atan2 (y x : ℝ) : ℝ := Complex.arg ⟨x, y⟩

/-- The normalization `atan2(sin θ, cos θ)` that wraps an angle into
`[-π, π]`, as used by `VehicleDynamics.update` and `_is_in_trajectory`. -/
def wrapAngle (θ : ℝ) : ℝ := atan2 (Real.sin θ) (Real.cos θ)

/-- Operation modes from `vehicle_state.py` (`OperationMode`). -/
inductive OperationMode
  | MANUAL_LOCAL
  | AUTOMATIC_REMOTE
  deriving DecidableEq

/-- Vehicle statuses from `vehicle_state.py` (`VehicleStatus`). -/
inductive VehicleStatus
  | STOPPED
  | RUNNING
  | FAULT
  | EMERGENCY
  deriving DecidableEq

/-- Embeds the `VehicleState` dataclass of `vehicle_state.py`, with the
defaults of its field declarations. -/
structure VehicleState where
  truck_id : Nat
  position_x : ℝ := 0
  position_y : ℝ := 0
  theta : ℝ := 0
  velocity : ℝ := 0
  mode : OperationMode := OperationMode.MANUAL_LOCAL
  status : VehicleStatus := VehicleStatus.STOPPED
  acceleration_cmd : ℝ := 0
  steering_cmd : ℝ := 0
  velocity_setpoint : ℝ := 0
  angular_setpoint : ℝ := 0
  target_x : Option ℝ := none
  target_y : Option ℝ := none
  temperature : ℝ := 0
  electrical_fault : Bool := false
  hydraulic_fault : Bool := false
  emergency_stop : Bool := false

/-- Embeds `VehicleState.has_fault`: electrical or hydraulic fault, or
temperature above 100 °C, or the emergency latch. -/
def VehicleState.has_fault (s : VehicleState) : Prop :=
  s.electrical_fault = true ∨ s.hydraulic_fault = true ∨
    s.temperature > 100 ∨ s.emergency_stop = true

/-- Embeds `VehicleState.is_automatic`. -/
def VehicleState.is_automatic (s : VehicleState) : Bool :=
  decide (s.mode = OperationMode.AUTOMATIC_REMOTE)

/-- Embeds `VehicleState.is_manual`. -/
def VehicleState.is_manual (s : VehicleState) : Bool :=
  decide (s.mode = OperationMode.MANUAL_LOCAL)

/-- Embeds `SharedState.set_position`: stores the four fields unchanged. -/
def set_position (st : VehicleState) (x y θ v : ℝ) : VehicleState :=
  { st with position_x := x, position_y := y, theta := θ, velocity := v }

/-- Embeds `SharedState.set_actuators`: stores both commands exactly as
passed; the method body performs no clamping. -/
def set_actuators (st : VehicleState) (acceleration steering : ℝ) : VehicleState :=
  { st with acceleration_cmd := acceleration, steering_cmd := steering }

/-- Embeds `SharedState.set_setpoints`: a `None` argument leaves the
corresponding field unchanged. -/
def set_setpoints (st : VehicleState) (velocity_sp angular_sp : Option ℝ) : VehicleState :=
  { st with
    velocity_setpoint := velocity_sp.getD st.velocity_setpoint
    angular_setpoint := angular_sp.getD st.angular_setpoint }

/-- Embeds `SharedState.set_target`: a `None` argument leaves the
corresponding field unchanged. -/
def set_target (st : VehicleState) (tx ty : Option ℝ) : VehicleState :=
  { st with
    target_x := if tx.isSome then tx else st.target_x
    target_y := if ty.isSome then ty else st.target_y }

/-- Embeds the `ActuatorData` dataclass of `sensor_data.py` as it stands
after `__post_init__`. -/
structure ActuatorData where
  acceleration : ℝ
  steering : ℝ
  timestamp : Option ℝ := none

/-- Construction of an `ActuatorData`: the dataclass constructor followed
by `__post_init__`, which clamps both commands to `[-1, 1]`. -/
def mkActuatorData (acceleration steering : ℝ) (timestamp : Option ℝ) : ActuatorData :=
  ⟨clampUnit acceleration, clampUnit steering, timestamp⟩

/-- Modelled from the spec: the repository imports `VelocityController` and
`AngularController` from `src.embedded.control`, whose files are not under
`src/`; the controller state is reconstructed from spec §4.5 ("PID
Controllers"): gains, nominal period `dt`, an active flag, the integral
accumulator and the previous error. -/
structure PIDController where
  kp : ℝ
  ki : ℝ
  kd : ℝ
  dt : ℝ
  active : Bool := false
  integral : ℝ := 0
  prev_error : ℝ := 0

/-- Modelled from the spec: `compute(measurement, setpoint)` per §4.5.
Error `e = setpoint − measurement` (wrapped to `[-π, π]` for the heading
variant, selected by `wrap`); `u = Kp·e + Ki·∫e·dt + Kd·(e − e_prev)/dt`;
output saturated to `[-1, 1]`; anti-windup by clamping: the integral is not
accumulated on a step where the unsaturated output leaves `[-1, 1]` in the
direction of `e`; `compute` is a no-op returning 0 while inactive. -/
def PIDController.compute (c : PIDController) (measurement setpoint : ℝ) (wrap : Bool) :
    ℝ × PIDController :=
  if c.active = false then (0, c)
  else
    let e := if wrap then wrapAngle (setpoint - measurement) else setpoint - measurement
    let icand := c.integral + e * c.dt
    let ucand := c.kp * e + c.ki * icand + c.kd * (e - c.prev_error) / c.dt
    let integ := if (1 < ucand ∧ 0 < e) ∨ (ucand < -1 ∧ e < 0) then c.integral else icand
    let u := c.kp * e + c.ki * integ + c.kd * (e - c.prev_error) / c.dt
    (clampUnit u, { c with integral := integ, prev_error := e })

/-- Modelled from the spec: `enable(measurement)` marks the controller
active and zeroes `e_prev`; the spec's bumpless integral initialization
depends on the previous actuator command, which this call signature does
not carry, so the stored integral is kept. -/
def PIDController.enable (c : PIDController) (_m : ℝ) : PIDController :=
  { c with active := true, prev_error := 0 }

/-- Modelled from the spec: `disable()` marks the controller inactive. -/
def PIDController.disable (c : PIDController) : PIDController :=
  { c with active := false }

/-- The data a Navigation Control iteration reads and writes: the shared
vehicle state, the two controller states, `_prev_mode_automatic`, and the
EMERGENCY_STOP event queue polled by `_check_fault_events`. -/
structure NavInput where
  state : VehicleState
  velocity_controller : PIDController
  angular_controller : PIDController
  prev_mode_automatic : Bool
  emergency_events : List Event

/-- Embeds one iteration of the Navigation Control task body
(`navigation_control.py`, `run`): snapshot, mode-edge handling
(enable/disable of both controllers), then the control branch — the PIDs
compute and their outputs are written to the actuators exactly when the
mode is automatic and the status differs from EMERGENCY; in manual mode the
setpoints mirror the measurements — and finally `_check_fault_events`,
which pops one EMERGENCY_STOP event if pending and in that case disables
the controllers and writes `(0, 0)` to the actuators. -/
def navTick (inp : NavInput) : NavInput :=
  let s := inp.state
  let edge :=
    if s.is_automatic && !inp.prev_mode_automatic then
      (inp.velocity_controller.enable s.velocity, inp.angular_controller.enable s.theta)
    else if !s.is_automatic && inp.prev_mode_automatic then
      (inp.velocity_controller.disable, inp.angular_controller.disable)
    else (inp.velocity_controller, inp.angular_controller)
  let prevAuto := s.is_automatic
  let main :=
    if s.is_automatic && decide (s.status ≠ VehicleStatus.EMERGENCY) then
      let a := edge.1.compute s.velocity s.velocity_setpoint false
      let t := edge.2.compute s.theta s.angular_setpoint true
      (set_actuators s a.1 t.1, a.2, t.2)
    else if s.is_manual then
      (set_setpoints s (some s.velocity) (some s.theta), edge.1, edge.2)
    else (s, edge.1, edge.2)
  match inp.emergency_events with
  | _ :: rest =>
    { state := set_actuators main.1 0 0
      velocity_controller := main.2.1.disable
      angular_controller := main.2.2.disable
      prev_mode_automatic := prevAuto
      emergency_events := rest }
  | [] =>
    { state := main.1
      velocity_controller := main.2.1
      angular_controller := main.2.2
      prev_mode_automatic := prevAuto
      emergency_events := [] }

/-- Embeds `VehicleParameters` of `vehicle_dynamics.py`. -/
structure VehicleParameters where
  max_velocity : ℝ := 10
  max_angular_velocity : ℝ := 1
  tau_velocity : ℝ := 0.5
  tau_angular : ℝ := 0.3
  dt : ℝ := 0.1

/-- Embeds the mutable state of `VehicleDynamics`. -/
structure VehicleDynamics where
  params : VehicleParameters
  x : ℝ := 0
  y : ℝ := 0
  theta : ℝ := 0
  velocity : ℝ := 0
  angular_velocity : ℝ := 0

/-- Embeds `VehicleDynamics.update`: commands clamped to `[-1, 1]`,
first-order lag toward the target velocities, kinematic position update,
and normalization of `theta` into `[-π, π]` via `atan2(sin θ, cos θ)`. -/
def VehicleDynamics.update (dyn : VehicleDynamics) (accel_cmd steer_cmd : ℝ) :
    VehicleDynamics :=
  let a := clampUnit accel_cmd
  let st := clampUnit steer_cmd
  let target_velocity := a * dyn.params.max_velocity
  let target_angular := st * dyn.params.max_angular_velocity
  let v := dyn.velocity + (target_velocity - dyn.velocity) * dyn.params.dt / dyn.params.tau_velocity
  let w := dyn.angular_velocity + (target_angular - dyn.angular_velocity) * dyn.params.dt / dyn.params.tau_angular
  let nx := dyn.x + v * Real.cos dyn.theta * dyn.params.dt
  let ny := dyn.y + v * Real.sin dyn.theta * dyn.params.dt
  let nθ := wrapAngle (dyn.theta + w * dyn.params.dt)
  { dyn with x := nx, y := ny, theta := nθ, velocity := v, angular_velocity := w }

/-- Embeds `NoiseGenerator.add_noise` of `noise_generator.py`: returns
`value + noise`, where `noise` is the Gaussian draw `random.gauss(0, σ)`,
taken here as an arbitrary real input. -/
def add_noise (value noise : ℝ) : ℝ := value + noise

/-- Route-planner task state (`route_planner.py`): current route, waypoint
index, and the reach threshold (default 1.0 m). -/
structure RoutePlanner where
  route : List (ℝ × ℝ)
  current_waypoint_idx : Nat
  waypoint_threshold : ℝ := 1

/-- Euclidean distance `math.sqrt((bx-ax)**2 + (by-ay)**2)` as computed in
`route_planner.py` and in `CollisionAvoidanceTask._calculate_distance`. -/
def calculate_distance (ax ay bx by2 : ℝ) : ℝ :=
  Real.sqrt ((bx - ax) ^ 2 + (by2 - ay) ^ 2)

/-- The common tail of `_update_setpoints`: desired heading by `atan2`
toward the target, desired velocity `max(0.5, min(5.0, d · 0.5))`, written
through `set_setpoints` and `set_target`. -/
def routeFinish (rp : RoutePlanner) (idx : Nat) (tx ty d : ℝ) (st : VehicleState) :
    RoutePlanner × VehicleState × List EventType :=
  let desired_theta := atan2 (ty - st.position_y) (tx - st.position_x)
  let desired_velocity := max 0.5 (min 5 (d * 0.5))
  ({ rp with current_waypoint_idx := idx },
   set_target (set_setpoints st (some desired_velocity) (some desired_theta)) (some tx) (some ty),
   [])

/-- Embeds `RoutePlanningTask._update_setpoints`: route complete emits
TARGET_REACHED and stops; otherwise the distance to the current waypoint is
compared strictly against the threshold; on advance past the last waypoint
the function returns early; else the setpoints are computed toward the
(possibly advanced) waypoint.  The returned list holds the emitted events. -/
def update_setpoints (rp : RoutePlanner) (st : VehicleState) :
    RoutePlanner × VehicleState × List EventType :=
  if rp.route.length ≤ rp.current_waypoint_idx then
    ({ rp with route := [] }, set_setpoints st (some 0) none, [EventType.TARGET_REACHED])
  else
    let t0 := rp.route.getD rp.current_waypoint_idx (0, 0)
    let d0 := calculate_distance st.position_x st.position_y t0.1 t0.2
    if d0 < rp.waypoint_threshold then
      let i1 := rp.current_waypoint_idx + 1
      if rp.route.length ≤ i1 then ({ rp with current_waypoint_idx := i1 }, st, [])
      else
        let t1 := rp.route.getD i1 (0, 0)
        let d1 := calculate_distance st.position_x st.position_y t1.1 t1.2
        routeFinish rp i1 t1.1 t1.2 d1 st
    else
      routeFinish rp rp.current_waypoint_idx t0.1 t0.2 d0 st

/-- Collision-avoidance thresholds (`collision_avoidance.py` defaults). -/
structure AvoidanceConfig where
  safety_distance : ℝ := 5
  warning_distance : ℝ := 10

/-- Embeds `CollisionAvoidanceTask._is_in_trajectory`: the wrapped bearing
to the peer lies strictly inside the `±π/4` heading cone and the distance
is below twice the warning distance. -/
def is_in_trajectory (mx my mθ warning ox oy d : ℝ) : Prop :=
  |wrapAngle (atan2 (oy - my) (ox - mx) - mθ)| < Real.pi / 4 ∧ d < warning * 2

/-- The peer loop of `_check_collisions`: keeps the closest peer that lies
in the heading cone; the accumulator is the running
`(closest_truck, min_distance)`, with Python's `None` / `float('inf')`
start represented by `none`. -/
def scanPeers (mx my mθ warning : ℝ) :
    List (Nat × ℝ × ℝ) → Option (Nat × ℝ × ℝ × ℝ) → Option (Nat × ℝ × ℝ × ℝ)
  | [], acc => acc
  | (tid, ox, oy) :: rest, acc =>
    let d := calculate_distance mx my ox oy
    let closer : Prop :=
      match acc with
      | none => True
      | some (_, _, _, dm) => d < dm
    if is_in_trajectory mx my mθ warning ox oy d ∧ closer then
      scanPeers mx my mθ warning rest (some (tid, ox, oy, d))
    else
      scanPeers mx my mθ warning rest acc

/-- Embeds `CollisionAvoidanceTask._calculate_avoidance_angle`: the sign of
`sin(angle_to_other − θ)` picks the side; strictly positive steers to
`θ − π/6`, otherwise (including the collinear case `sin = 0`) to `θ + π/6`. -/
def calculate_avoidance_angle (mx my mθ ox oy : ℝ) : ℝ :=
  let cross := Real.sin (atan2 (oy - my) (ox - mx) - mθ)
  if 0 < cross then mθ - Real.pi / 6 else mθ + Real.pi / 6

/-- Embeds the effect of `CollisionAvoidanceTask._check_collisions` on the
shared vehicle state, with the peer cache passed as a list in iteration
order: no peers or none in the cone leaves the state alone; a closest
in-cone peer below the safety distance forces the velocity setpoint to 0;
between safety and warning distance the velocity setpoint is scaled by
`clamp((d − safety)/(warning − safety), 0.3, 1.0)` and the angular setpoint
set to the avoidance angle; farther peers leave the state alone. -/
def check_collisions (cfg : AvoidanceConfig) (s : VehicleState)
    (other_trucks : List (Nat × ℝ × ℝ)) : VehicleState :=
  if other_trucks = [] then s
  else
    match scanPeers s.position_x s.position_y s.theta cfg.warning_distance other_trucks none with
    | none => s
    | some (_, ox, oy, dmin) =>
      if dmin < cfg.safety_distance then set_setpoints s (some 0) none
      else if dmin < cfg.warning_distance then
        let rf := max 0.3 (min 1 ((dmin - cfg.safety_distance) / (cfg.warning_distance - cfg.safety_distance)))
        let reduced := s.velocity_setpoint * rf
        let aθ := calculate_avoidance_angle s.position_x s.position_y s.theta ox oy
        set_setpoints s (some reduced) (some aθ)
      else s

/-- The event-description strings written by `data_collector.py`,
abstracted to a tagged type; the `mode` payload of MODE_CHANGED is kept as
the numeric event data. -/
inductive EventDescription
  | statusNormal
  | modeChanged (mode : Nat)
  | emergencyStop
  | emergencyReset
  | targetReached
  deriving DecidableEq

/-- Embeds the `LogEntry` dataclass of `log_entry.py`; the status and mode
strings are represented by the corresponding enumerations. -/
structure LogEntry where
  timestamp : ℝ
  truck_id : Nat
  status : VehicleStatus
  mode : OperationMode
  position_x : ℝ
  position_y : ℝ
  theta : ℝ
  velocity : ℝ
  event_description : EventDescription
  temperature : ℝ := 0
  electrical_fault : Bool := false
  hydraulic_fault : Bool := false

/-- Embeds `DataCollectorTask._check_events`: the four event types are
polled in order MODE_CHANGED, EMERGENCY_STOP, EMERGENCY_RESET,
TARGET_REACHED, and the method returns right after the first pending one,
consuming only that event and setting the entry's description from it. -/
def dc_check_events (q : EventQueues) (entry : LogEntry) : LogEntry × EventQueues :=
  match check_event q EventType.MODE_CHANGED with
  | (some e, q1) => ({ entry with event_description := .modeChanged e.data }, q1)
  | (none, q1) =>
  match check_event q1 EventType.EMERGENCY_STOP with
  | (some _, q2) => ({ entry with event_description := .emergencyStop }, q2)
  | (none, q2) =>
  match check_event q2 EventType.EMERGENCY_RESET with
  | (some _, q3) => ({ entry with event_description := .emergencyReset }, q3)
  | (none, q3) =>
  match check_event q3 EventType.TARGET_REACHED with
  | (some _, q4) => ({ entry with event_description := .targetReached }, q4)
  | (none, q4) => (entry, q4)

/-- The log sink: the append to the CSV file may fail with a transient I/O
error; the `ok` flag selects whether this tick's append succeeds. -/
def appendSink (ok : Bool) (file : List LogEntry) (entry : LogEntry) :
    Except String (List LogEntry) :=
  if ok then .ok (file ++ [entry]) else .error "write failed"

/-- Embeds `DataCollectorTask._write_log`: the append is wrapped in its own
try/except, so on failure the file is left unchanged and no error escapes. -/
def write_log (ok : Bool) (file : List LogEntry) (entry : LogEntry) : List LogEntry :=
  match appendSink ok file entry with
  | .ok f2 => f2
  | .error _ => file

/-- Embeds one iteration of the Data Collector task body
(`data_collector.py`, `run`, steps 1–5): snapshot the state, build the log
entry, `_check_events`, `_write_log`, and enqueue the entry for the local
interface (the queue is unbounded, so `put_nowait` never raises).  The
result is the shared vehicle state as the task leaves it, the event queues,
the log file, and the local-interface queue; the `Except` layer makes an
escaping error visible. -/
def dc_tick (s : VehicleState) (q : EventQueues) (ok : Bool)
    (file : List LogEntry) (log_queue : List LogEntry) (now : ℝ) :
    Except String (VehicleState × EventQueues × List LogEntry × List LogEntry) :=
  let entry0 : LogEntry :=
    { timestamp := now, truck_id := s.truck_id, status := s.status, mode := s.mode
      position_x := s.position_x, position_y := s.position_y, theta := s.theta
      velocity := s.velocity, event_description := .statusNormal
      temperature := s.temperature, electrical_fault := s.electrical_fault
      hydraulic_fault := s.hydraulic_fault }
  let r := dc_check_events q entry0
  let file2 := write_log ok file r.1
  .ok (s, r.2, file2, log_queue ++ [r.1])

/-- The first of the four event types polled by `_check_events` whose queue
is pending, in the polling order; used to state what one collector tick
consumes. -/
def firstPendingOf4 (q : EventQueues) : Option EventType :=
  if q EventType.MODE_CHANGED ≠ [] then some EventType.MODE_CHANGED
  else if q EventType.EMERGENCY_STOP ≠ [] then some EventType.EMERGENCY_STOP
  else if q EventType.EMERGENCY_RESET ≠ [] then some EventType.EMERGENCY_RESET
  else if q EventType.TARGET_REACHED ≠ [] then some EventType.TARGET_REACHED
  else none

/-- Concrete Navigation Control scenario: automatic mode, status RUNNING,
an active electrical fault, measured velocity 0 against setpoint 5 m/s,
heading and heading setpoint both 0. -/
def c2State : VehicleState :=
  { truck_id := 1, velocity := 0, theta := 0
    mode := OperationMode.AUTOMATIC_REMOTE, status := VehicleStatus.RUNNING
    velocity_setpoint := 5, angular_setpoint := 0
    acceleration_cmd := 0.7, steering_cmd := 0.2
    electrical_fault := true }

/-- Velocity PID with the repository's gains (`kp=0.5, ki=0.1, kd=0.05`)
at the 50 ms control period, enabled, with zero integral and error memory. -/
def c2VelocityController : PIDController :=
  { kp := 0.5, ki := 0.1, kd := 0.05, dt := 0.05, active := true }

/-- Heading PID with the repository's gains (`kp=1.0, ki=0.05, kd=0.2`)
at the 50 ms control period, enabled, with zero integral and error memory. -/
def c2AngularController : PIDController :=
  { kp := 1, ki := 0.05, kd := 0.2, dt := 0.05, active := true }

/-- Navigation tick input for the faulted-but-running scenario: no mode
edge, no pending EMERGENCY_STOP event. -/
def c2Input : NavInput :=
  { state := c2State, velocity_controller := c2VelocityController
    angular_controller := c2AngularController
    prev_mode_automatic := true, emergency_events := [] }

/-- Vehicle state latched in EMERGENCY (manual mode), with nonzero stored
actuator commands. -/
def c2EmergencyState : VehicleState :=
  { truck_id := 1, status := VehicleStatus.EMERGENCY, emergency_stop := true
    acceleration_cmd := 0.7, steering_cmd := 0.2 }

/-- Navigation tick input for the EMERGENCY scenario: no mode edge and no
pending EMERGENCY_STOP event. -/
def c2EmergencyInput : NavInput :=
  { state := c2EmergencyState, velocity_controller := c2VelocityController
    angular_controller := c2AngularController
    prev_mode_automatic := false, emergency_events := [] }

/-- Own vehicle of the spec's collision scenario: pose (50, 37.5, θ = 0),
velocity setpoint 5 m/s, automatic mode. -/
def c5State : VehicleState :=
  { truck_id := 1, position_x := 50, position_y := 37.5, theta := 0
    mode := OperationMode.AUTOMATIC_REMOTE, status := VehicleStatus.RUNNING
    velocity_setpoint := 5 }

/-- Event queues holding exactly one pending event of each of the four
types the Data Collector polls. -/
def c6Queues : EventQueues := fun t =>
  match t with
  | EventType.MODE_CHANGED => [⟨EventType.MODE_CHANGED, 1, 0⟩]
  | EventType.EMERGENCY_STOP => [⟨EventType.EMERGENCY_STOP, 2, 0⟩]
  | EventType.EMERGENCY_RESET => [⟨EventType.EMERGENCY_RESET, 3, 0⟩]
  | EventType.TARGET_REACHED => [⟨EventType.TARGET_REACHED, 4, 0⟩]
  | _ => []

/-- A concrete log entry as built at the start of a collector tick. -/
def c6Entry : LogEntry :=
  { timestamp := 0, truck_id := 1, status := VehicleStatus.STOPPED
    mode := OperationMode.MANUAL_LOCAL, position_x := 0, position_y := 0
    theta := 0, velocity := 0, event_description := EventDescription.statusNormal }

end

open Real

/-- Saturation to the unit interval always lands in `[-1, 1]`. -/
theorem abs_clampUnit_le_one (x : ℝ) : |clampUnit x| ≤ 1 := by
  rw [clampUnit, abs_le]
  exact ⟨le_max_left _ _, max_le (by norm_num) (min_le_left _ _)⟩

/-- The wrap `atan2 (sin θ) (cos θ)` always lands in `[-π, π]`. -/
theorem abs_wrapAngle_le_pi (θ : ℝ) : |wrapAngle θ| ≤ Real.pi :=
  Complex.abs_arg_le_pi _

/-- C1 counterexample: `SharedState.set_actuators` performs no clamping, so
calling it with acceleration 2 stores an acceleration command of 2, and the
claimed invariant `|acceleration_cmd| ≤ 1` fails right after the call. -/
theorem C1_set_actuators_unclamped_counterexample :
    (set_actuators { truck_id := 1 } 2 0).acceleration_cmd = 2 ∧
    ¬ |(set_actuators { truck_id := 1 } 2 0).acceleration_cmd| ≤ 1 := by
  refine ⟨rfl, ?_⟩
  show ¬ |(2:ℝ)| ≤ 1
  norm_num

/-- C1 (amended): `SharedState.set_actuators` stores both commands exactly
as passed, with no clamping; the clamping described by the spec lives in
`ActuatorData.__post_init__`, whose fields always satisfy the `[-1, 1]`
bound.  The invariant `|acceleration_cmd| ≤ 1 ∧ |steering_cmd| ≤ 1` holds
for every constructed `ActuatorData`, but not for arbitrary arguments of
`set_actuators`. -/
theorem C1_actuator_clamping (st : VehicleState) (a s : ℝ) :
    ((set_actuators st a s).acceleration_cmd = a ∧
      (set_actuators st a s).steering_cmd = s) ∧
    (|(mkActuatorData a s none).acceleration| ≤ 1 ∧
      |(mkActuatorData a s none).steering| ≤ 1) :=
  ⟨⟨rfl, rfl⟩, abs_clampUnit_le_one a, abs_clampUnit_le_one s⟩

/-- C3 counterexample: the angle 3 is a legitimate wrapped heading
(|3| ≤ π), yet adding theta noise 1 to it yields 4 and `set_position`
stores 4 unchanged, so the stored theta violates `theta ∈ [-π, π]`. -/
theorem C3_theta_range_counterexample :
    |(3:ℝ)| ≤ Real.pi ∧
    add_noise 3 1 = 4 ∧
    (set_position { truck_id := 1 } 50 37.5 (add_noise 3 1) 0).theta = 4 ∧
    ¬ |(set_position { truck_id := 1 } 50 37.5 (add_noise 3 1) 0).theta| ≤ Real.pi := by
  have h4 : add_noise (3:ℝ) 1 = 4 := by norm_num [add_noise]
  have htheta : (set_position { truck_id := 1 } 50 37.5 (add_noise 3 1) 0).theta = 4 := by
    simp [set_position, h4]
  refine ⟨?_, h4, htheta, ?_⟩
  · rw [abs_of_nonneg (by norm_num : (0:ℝ) ≤ 3)]
    exact le_of_lt Real.pi_gt_three
  · rw [htheta, abs_of_nonneg (by norm_num : (0:ℝ) ≤ 4)]
    exact not_le.mpr Real.pi_lt_four

/-- C3 (amended): the dynamics update does normalize theta into `[-π, π]`;
but the simulator adds the Gaussian theta noise after that normalization
(`add_noise` is a plain sum) and `SharedState.set_position` stores theta
exactly as passed, so the stored theta is guaranteed in range only when the
written value already is. -/
theorem C3_theta_normalization :
    (∀ (dyn : VehicleDynamics) (a s : ℝ),
        -Real.pi ≤ (dyn.update a s).theta ∧ (dyn.update a s).theta ≤ Real.pi) ∧
    (∀ (st : VehicleState) (x y θ v : ℝ), (set_position st x y θ v).theta = θ) ∧
    (∀ (v n : ℝ), add_noise v n = v + n) := by
  refine ⟨?_, fun st x y θ v => rfl, fun v n => rfl⟩
  intro dyn a s
  exact abs_le.mp (abs_wrapAngle_le_pi _)

/-- C9: a Data Collector tick whose log-sink append fails still completes
normally (no error escapes the iteration, matching the try/except in
`_write_log` and in `run`), leaves the shared vehicle state exactly as it
found it, and leaves the log file unchanged on the failing tick. -/
theorem C9_collector_error_containment (s : VehicleState) (q : EventQueues)
    (ok : Bool) (file lq : List LogEntry) (now : ℝ) (entry : LogEntry) :
    (∃ r, dc_tick s q ok file lq now = Except.ok r ∧ r.1 = s) ∧
    write_log false file entry = file ∧
    (∃ r, dc_tick s q false file lq now = Except.ok r ∧ r.2.2.1 = file) :=
  ⟨⟨_, rfl, rfl⟩, rfl, ⟨_, rfl, rfl⟩⟩

/-- C10: `read_last_n 0` on a non-empty buffer returns the entire contents
in order (Python's `[-0:]` slice is the whole list), `read_last_n k` for
`k ≥ 1` returns the suffix of at most `k` most recent samples, and
`read_last_n` on an empty buffer returns the empty list. -/
theorem C10_read_last_n {α : Type} (b : CircularBuffer α) (k : Nat) :
    (b.buffer ≠ [] → b.read_last_n 0 = b.buffer) ∧
    (1 ≤ k → b.read_last_n k = b.buffer.drop (b.buffer.length - k)) ∧
    (b.buffer = [] → b.read_last_n k = []) := by
  refine ⟨?_, ?_, ?_⟩
  · intro h
    simp [CircularBuffer.read_last_n, pySliceLast, List.length_pos.mpr h]
  · intro hk
    by_cases hb : b.buffer = []
    · simp [CircularBuffer.read_last_n, hb]
    · simp [CircularBuffer.read_last_n, pySliceLast, List.length_pos.mpr hb,
        show k ≠ 0 by omega]
  · intro h
    simp [CircularBuffer.read_last_n, h]

/-- C10 witness: on the buffer holding [10, 20, 30], `read_last_n 0`
returns all three samples, `read_last_n 2` the last two, and on the empty
buffer `read_last_n 7` returns `[]`. -/
theorem C10_read_last_n_witness :
    (⟨5, [10, 20, 30]⟩ : CircularBuffer ℕ).read_last_n 0 = [10, 20, 30] ∧
    (⟨5, [10, 20, 30]⟩ : CircularBuffer ℕ).read_last_n 2 = [20, 30] ∧
    (⟨5, ([] : List ℕ)⟩ : CircularBuffer ℕ).read_last_n 7 = [] := by
  refine ⟨(C10_read_last_n ⟨5, [10, 20, 30]⟩ 0).1 (by decide), ?_,
    (C10_read_last_n ⟨5, []⟩ 7).2.2 rfl⟩
  exact ((C10_read_last_n ⟨5, [10, 20, 30]⟩ 2).2.1 (by decide)).trans (by decide)

/-- Folding writes into a buffer whose contents respect its capacity: the
result is the suffix of the old contents followed by the writes that still
fits the capacity. -/
theorem CircularBuffer.foldl_write_buffer {α : Type} (ws : List α) :
    ∀ (b : CircularBuffer α), b.buffer.length ≤ b.size →
      (ws.foldl CircularBuffer.write b).buffer
        = (b.buffer ++ ws).drop (b.buffer.length + ws.length - b.size) := by
  induction ws with
  | nil =>
    intro b hb
    simp [Nat.sub_eq_zero_of_le hb]
  | cons d ws ih =>
    intro b hb
    have hbuf : (b.write d).buffer = (b.buffer ++ [d]).drop (b.buffer.length + 1 - b.size) := rfl
    have hsz : (b.write d).size = b.size := rfl
    have hle : (b.write d).buffer.length ≤ (b.write d).size := by
      rw [hbuf, hsz, List.length_drop, List.length_append]
      simp only [List.length_singleton]
      omega
    have h2 := ih (b.write d) hle
    rw [List.foldl_cons, h2, hbuf, hsz,
      ← List.drop_append_of_le_length
        (by rw [List.length_append]; simp only [List.length_singleton]; omega),
      List.drop_drop, List.append_assoc, List.singleton_append]
    congr 1
    rw [List.length_drop, List.length_append]
    simp only [List.length_singleton, List.length_cons, List.length_nil]
    omega

/-- Dropping strictly fewer elements than the length preserves the last
element of a list. -/
theorem getLast?_drop_of_lt {α : Type} (l : List α) (k : Nat) (h : k < l.length) :
    (l.drop k).getLast? = l.getLast? := by
  have hne : l.drop k ≠ [] := by
    simp [List.drop_eq_nil_iff]
    omega
  conv_rhs => rw [← List.take_append_drop k l]
  rw [List.getLast?_append_of_ne_nil _ hne]

/-- C8: starting from an empty buffer of capacity N > 0, after any sequence
of writes the buffer holds exactly the most recent N written samples in
write order (each write beyond capacity drops only the oldest sample), and
`read_latest` returns the most recently written sample; `read_latest` is a
pure observer of the buffer value, so reading changes nothing. -/
theorem C8_write_window {α : Type} (N : Nat) (hN : 0 < N) (ws : List α) :
    (ws.foldl CircularBuffer.write (CircularBuffer.empty α N)).buffer
        = ws.drop (ws.length - N) ∧
    (ws.foldl CircularBuffer.write (CircularBuffer.empty α N)).read_latest
        = ws.getLast? := by
  have hbuf : (ws.foldl CircularBuffer.write (CircularBuffer.empty α N)).buffer
      = ws.drop (ws.length - N) := by
    rw [CircularBuffer.foldl_write_buffer ws (CircularBuffer.empty α N)
      (by simp [CircularBuffer.empty])]
    simp [CircularBuffer.empty]
  refine ⟨hbuf, ?_⟩
  rw [CircularBuffer.read_latest, hbuf]
  cases ws with
  | nil => simp
  | cons a l =>
    exact getLast?_drop_of_lt _ _ (by simp; omega)

/-- C8 witness: capacity 2, writes [1, 2, 3]: the buffer holds the last two
samples [2, 3] and `read_latest` returns 3. -/
theorem C8_write_window_witness :
    (0:Nat) < 2 ∧
    ([1, 2, 3].foldl CircularBuffer.write (CircularBuffer.empty ℕ 2)).buffer = [2, 3] ∧
    ([1, 2, 3].foldl CircularBuffer.write (CircularBuffer.empty ℕ 2)).read_latest = some 3 := by
  have h := C8_write_window 2 (by decide) [1, 2, 3]
  exact ⟨by decide, h.1.trans (by decide), h.2.trans (by decide)⟩

/-- C7: within one event type the queues are FIFO — with the type's queue
initially empty, after `emit(t, d1)` then `emit(t, d2)` two successive
retrievals return the d1 event then the d2 event and a third finds the
queue empty — and every successful retrieval pops exactly its returned
event: the pre-queue of the type is the returned event followed by the
post-queue, other types are untouched; the non-blocking core of
`wait_for_event` on a single type behaves exactly like `check_event`. -/
theorem C7_event_delivery :
    (∀ (q : EventQueues) (t : EventType) (d1 d2 ts1 ts2 : Nat),
        q t = [] →
        (check_event (emit (emit q t d1 ts1) t d2 ts2) t).1 = some ⟨t, d1, ts1⟩ ∧
        (check_event (check_event (emit (emit q t d1 ts1) t d2 ts2) t).2 t).1
          = some ⟨t, d2, ts2⟩ ∧
        (check_event (check_event (check_event (emit (emit q t d1 ts1) t d2 ts2) t).2 t).2 t).1
          = none) ∧
    (∀ (q : EventQueues) (t : EventType) (e : Event) (q2 : EventQueues),
        check_event q t = (some e, q2) →
        q t = e :: q2 t ∧ ∀ u, u ≠ t → q2 u = q u) ∧
    (∀ (q : EventQueues) (t : EventType), wait_for_event q [t] = check_event q t) := by
  refine ⟨?_, ?_, ?_⟩
  · intro q t d1 d2 ts1 ts2 h
    refine ⟨?_, ?_, ?_⟩ <;> simp [check_event, emit, h]
  · intro q t e q2 h
    cases hq : q t with
    | nil => simp [check_event, hq] at h
    | cons a rest =>
      simp only [check_event, hq] at h
      obtain ⟨he, hq2⟩ := Prod.mk.injEq .. ▸ h
      rw [Option.some_inj] at he
      subst he
      subst hq2
      refine ⟨by simp [hq], ?_⟩
      intro u hu
      simp [hu]
  · intro q t
    cases hq : q t <;> simp [wait_for_event, check_event, hq]

/-- C7 witness: on initially empty queues, emitting MODE_CHANGED payloads
1 then 2 and retrieving twice returns them in emission order, and a third
retrieval returns none. -/
theorem C7_event_delivery_witness :
    (check_event (emit (emit (fun _ => []) EventType.MODE_CHANGED 1 10)
        EventType.MODE_CHANGED 2 20) EventType.MODE_CHANGED).1
      = some ⟨EventType.MODE_CHANGED, 1, 10⟩ ∧
    (check_event (check_event (emit (emit (fun _ => []) EventType.MODE_CHANGED 1 10)
        EventType.MODE_CHANGED 2 20) EventType.MODE_CHANGED).2 EventType.MODE_CHANGED).1
      = some ⟨EventType.MODE_CHANGED, 2, 20⟩ ∧
    (check_event (check_event (check_event (emit (emit (fun _ => []) EventType.MODE_CHANGED 1 10)
        EventType.MODE_CHANGED 2 20) EventType.MODE_CHANGED).2 EventType.MODE_CHANGED).2
        EventType.MODE_CHANGED).1
      = none :=
  C7_event_delivery.1 (fun _ => []) EventType.MODE_CHANGED 1 2 10 20 rfl

/-- C6 counterexample: with one pending event of each of the four polled
types, a single `_check_events` call consumes only the MODE_CHANGED event
(the method returns right after the first hit); the EMERGENCY_STOP queue —
and likewise the later ones — still holds its event after the tick,
contradicting the claim that each pending type loses one event. -/
theorem C6_partial_consumption_counterexample :
    (dc_check_events c6Queues c6Entry).2 EventType.MODE_CHANGED = [] ∧
    (dc_check_events c6Queues c6Entry).2 EventType.EMERGENCY_STOP
      = [⟨EventType.EMERGENCY_STOP, 2, 0⟩] :=
  ⟨rfl, rfl⟩

/-- C6 (amended): each Data Collector tick consumes at most one event —
exactly the head of the first pending queue among MODE_CHANGED,
EMERGENCY_STOP, EMERGENCY_RESET, TARGET_REACHED in that polling order —
and every other queue, including the later pending ones of the four, is
left unchanged; when none of the four is pending, no queue changes. -/
theorem C6_first_pending_consumed (q : EventQueues) (entry : LogEntry) (t : EventType) :
    (dc_check_events q entry).2 t
      = if firstPendingOf4 q = some t then (q t).tail else q t := by
  unfold dc_check_events firstPendingOf4
  cases h1 : q EventType.MODE_CHANGED with
  | cons e1 r1 =>
    simp only [check_event, h1]
    by_cases ht : t = EventType.MODE_CHANGED
    · subst ht; simp [h1]
    · have hts : EventType.MODE_CHANGED ≠ t := fun h => ht h.symm
      simp [ht, hts, h1]
  | nil =>
    simp only [check_event, h1]
    cases h2 : q EventType.EMERGENCY_STOP with
    | cons e2 r2 =>
      simp only [h2]
      by_cases ht : t = EventType.EMERGENCY_STOP
      · subst ht; simp [h1, h2]
      · have hts : EventType.EMERGENCY_STOP ≠ t := fun h => ht h.symm
        simp [ht, hts, h1, h2]
    | nil =>
      simp only [h2]
      cases h3 : q EventType.EMERGENCY_RESET with
      | cons e3 r3 =>
        simp only [h3]
        by_cases ht : t = EventType.EMERGENCY_RESET
        · subst ht; simp [h1, h2, h3]
        · have hts : EventType.EMERGENCY_RESET ≠ t := fun h => ht h.symm
          simp [ht, hts, h1, h2, h3]
      | nil =>
        simp only [h3]
        cases h4 : q EventType.TARGET_REACHED with
        | cons e4 r4 =>
          simp only [h4]
          by_cases ht : t = EventType.TARGET_REACHED
          · subst ht; simp [h1, h2, h3, h4]
          · have hts : EventType.TARGET_REACHED ≠ t := fun h => ht h.symm
            simp [ht, hts, h1, h2, h3, h4]
        | nil =>
          simp [h1, h2, h3, h4]

/-- C4 counterexample: with pose (0, 0) and current waypoint (1, 0) the
distance is exactly the default threshold 1.0 m; `_update_setpoints`
compares with strict `<`, so the waypoint index does not advance — a pose
exactly at the threshold is NOT treated as having reached the waypoint. -/
theorem C4_threshold_boundary_counterexample :
    calculate_distance 0 0 1 0 = (1:ℝ) ∧
    (update_setpoints ⟨[(1, 0)], 0, 1⟩ { truck_id := 1 }).1.current_waypoint_idx = 0 := by
  have hd : calculate_distance 0 0 1 0 = (1:ℝ) := by
    rw [calculate_distance]
    norm_num
  refine ⟨hd, ?_⟩
  have hd2 : calculate_distance ({ truck_id := 1 } : VehicleState).position_x
      ({ truck_id := 1 } : VehicleState).position_y
      (([( (1:ℝ), (0:ℝ))]).getD 0 (0, 0)).1 (([((1:ℝ), (0:ℝ))]).getD 0 (0, 0)).2 = 1 := hd
  simp only [update_setpoints]
  rw [if_neg (by norm_num), if_neg (by rw [hd2]; exact lt_irrefl 1), routeFinish]

/-- C4 (amended): with a valid current waypoint, the route-planner update
advances the waypoint index exactly when the distance to that waypoint is
strictly below `waypoint_threshold`; at distance equal to (or above) the
threshold the index is left unchanged and the setpoints are computed toward
the same waypoint. -/
theorem C4_waypoint_advance (rp : RoutePlanner) (st : VehicleState)
    (h : rp.current_waypoint_idx < rp.route.length) :
    (calculate_distance st.position_x st.position_y
        (rp.route.getD rp.current_waypoint_idx (0, 0)).1
        (rp.route.getD rp.current_waypoint_idx (0, 0)).2 < rp.waypoint_threshold →
      (update_setpoints rp st).1.current_waypoint_idx = rp.current_waypoint_idx + 1) ∧
    (rp.waypoint_threshold ≤ calculate_distance st.position_x st.position_y
        (rp.route.getD rp.current_waypoint_idx (0, 0)).1
        (rp.route.getD rp.current_waypoint_idx (0, 0)).2 →
      (update_setpoints rp st).1.current_waypoint_idx = rp.current_waypoint_idx) := by
  constructor
  · intro hd
    simp only [update_setpoints]
    rw [if_neg (by omega), if_pos hd]
    by_cases h2 : rp.route.length ≤ rp.current_waypoint_idx + 1
    · rw [if_pos h2]
    · rw [if_neg h2, routeFinish]
  · intro hd
    simp only [update_setpoints]
    rw [if_neg (by omega), if_neg (not_lt.mpr hd), routeFinish]

/-- C4 witness: pose (0, 0) with current waypoint (0, 0): distance 0 is
strictly below the threshold 1, and the index advances from 0 to 1. -/
theorem C4_waypoint_advance_witness :
    (0:ℕ) < 1 ∧
    calculate_distance 0 0 0 0 < (1:ℝ) ∧
    (update_setpoints ⟨[(0, 0)], 0, 1⟩ { truck_id := 1 }).1.current_waypoint_idx = 0 + 1 := by
  have hd : calculate_distance (0:ℝ) 0 0 0 < (1:ℝ) := by
    rw [calculate_distance]
    norm_num
  exact ⟨by decide, hd,
    (C4_waypoint_advance ⟨[(0, 0)], 0, 1⟩ { truck_id := 1 } (by decide)).1 hd⟩

/-- atan2 of y = 0 with a nonnegative x is 0 (the positive real axis). -/
theorem atan2_zero_of_nonneg (x : ℝ) (hx : 0 ≤ x) : atan2 0 x = 0 := by
  rw [atan2]
  exact Complex.arg_ofReal_of_nonneg hx

/-- Wrapping the zero angle yields zero. -/
theorem wrapAngle_zero : wrapAngle 0 = 0 := by
  rw [wrapAngle, Real.sin_zero, Real.cos_zero]
  exact atan2_zero_of_nonneg 1 zero_le_one

/-- The bearing from (50, 37.5) to the peer at (58, 37.5) is 0. -/
theorem atan2_c5_bearing : atan2 ((37.5:ℝ) - 37.5) (58 - 50) = 0 := by
  rw [show (37.5:ℝ) - 37.5 = 0 by norm_num, show (58:ℝ) - 50 = 8 by norm_num]
  exact atan2_zero_of_nonneg 8 (by norm_num)

/-- The distance from (50, 37.5) to (58, 37.5) is 8. -/
theorem calculate_distance_c5 : calculate_distance 50 37.5 58 37.5 = (8:ℝ) := by
  rw [calculate_distance,
    show ((58:ℝ) - 50) ^ 2 + ((37.5:ℝ) - 37.5) ^ 2 = 8 ^ 2 by norm_num]
  exact Real.sqrt_sq (by norm_num)

/-- Evaluation of the peer scan in the spec's collision scenario: the
single peer at (58, 37.5) seen from pose (50, 37.5, θ = 0) lies dead ahead
in the heading cone at distance 8 and is selected as the closest peer. -/
theorem scanPeers_c5 :
    scanPeers 50 37.5 0 10 [(2, 58, 37.5)] none = some (2, 58, 37.5, 8) := by
  have hcone : is_in_trajectory 50 37.5 0 10 58 37.5 (calculate_distance 50 37.5 58 37.5) := by
    constructor
    · rw [atan2_c5_bearing, sub_zero, wrapAngle_zero, abs_zero]
      exact div_pos Real.pi_pos (by norm_num)
    · rw [calculate_distance_c5]
      norm_num
  simp only [scanPeers]
  rw [if_pos ⟨hcone, trivial⟩, calculate_distance_c5]

/-- The avoidance angle for the spec's collision scenario: the peer is dead
ahead, so `sin(angle_to_other − θ) = 0`, the strict `cross > 0` test fails,
and the else-branch returns `θ + π/6 = +π/6`. -/
theorem calculate_avoidance_angle_c5 :
    calculate_avoidance_angle 50 37.5 0 58 37.5 = Real.pi / 6 := by
  rw [calculate_avoidance_angle]
  simp only [atan2_c5_bearing, sub_zero, Real.sin_zero, lt_irrefl, if_false, zero_add]

/-- C5 (amended): when the closest in-cone peer is at distance d with
safety ≤ d < warning, the tick scales the current velocity setpoint by
`clamp((d − safety)/(warning − safety), 0.3, 1.0)` and sets the angular
setpoint to own heading ∓ π/6, the branch picked by the strict sign test
`sin(angle_to_peer − θ) > 0` (minus steers away when the peer is to the
left; the collinear case `sin = 0` falls into the plus branch). -/
theorem C5_warning_band (cfg : AvoidanceConfig) (s : VehicleState)
    (trucks : List (Nat × ℝ × ℝ)) (tid : Nat) (ox oy d : ℝ)
    (hne : trucks ≠ [])
    (hscan : scanPeers s.position_x s.position_y s.theta cfg.warning_distance trucks none
      = some (tid, ox, oy, d))
    (hlo : cfg.safety_distance ≤ d) (hhi : d < cfg.warning_distance) :
    (check_collisions cfg s trucks).velocity_setpoint
      = s.velocity_setpoint
        * max 0.3 (min 1 ((d - cfg.safety_distance) / (cfg.warning_distance - cfg.safety_distance))) ∧
    (check_collisions cfg s trucks).angular_setpoint
      = (if 0 < Real.sin (atan2 (oy - s.position_y) (ox - s.position_x) - s.theta)
          then s.theta - Real.pi / 6 else s.theta + Real.pi / 6) := by
  rw [check_collisions, if_neg hne]
  simp only [hscan]
  rw [if_neg (not_lt.mpr hlo), if_pos hhi]
  exact ⟨by simp [set_setpoints], by simp [set_setpoints, calculate_avoidance_angle]⟩

/-- C5 witness: the spec's scenario (own pose (50, 37.5, 0), setpoint 5,
peer at (58, 37.5)) lies in the warning band, and one tick applies the
claimed velocity scaling. -/
theorem C5_warning_band_witness :
    (5:ℝ) ≤ 8 ∧ (8:ℝ) < 10 ∧
    (check_collisions {} c5State [(2, 58, 37.5)]).velocity_setpoint
      = c5State.velocity_setpoint * max 0.3 (min 1 (((8:ℝ) - 5) / (10 - 5))) := by
  refine ⟨by norm_num, by norm_num, ?_⟩
  exact (C5_warning_band {} c5State [(2, 58, 37.5)] 2 58 37.5 8 (by simp)
    scanPeers_c5 (by norm_num) (by norm_num)).1

/-- C5 counterexample: in the spec's concrete scenario the tick does set
velocity_setpoint to 3, but sets angular_setpoint to +π/6, not −π/6: the
peer is dead ahead, `sin(angle_to_peer − θ) = 0`, and the code's strict
`> 0` test sends the collinear case into the `+π/6` branch. -/
theorem C5_collision_scenario_counterexample :
    (check_collisions {} c5State [(2, 58, 37.5)]).velocity_setpoint = 3 ∧
    (check_collisions {} c5State [(2, 58, 37.5)]).angular_setpoint = Real.pi / 6 ∧
    Real.pi / 6 ≠ -(Real.pi / 6) := by
  have h := C5_warning_band {} c5State [(2, 58, 37.5)] 2 58 37.5 8 (by simp)
    scanPeers_c5 (by norm_num) (by norm_num)
  refine ⟨?_, ?_, ?_⟩
  · rw [h.1]
    show (5:ℝ) * max 0.3 (min 1 (((8:ℝ) - 5) / (10 - 5))) = 3
    rw [show ((8:ℝ) - 5) / (10 - 5) = 0.6 by norm_num,
      min_eq_right (by norm_num : (0.6:ℝ) ≤ 1), max_eq_right (by norm_num : (0.3:ℝ) ≤ 0.6)]
    norm_num
  · rw [h.2]
    show (if 0 < Real.sin (atan2 ((37.5:ℝ) - 37.5) ((58:ℝ) - 50) - 0) then
        (0:ℝ) - Real.pi / 6 else (0:ℝ) + Real.pi / 6) = Real.pi / 6
    rw [atan2_c5_bearing, sub_zero, Real.sin_zero, if_neg (lt_irrefl 0), zero_add]
  · intro hcontra
    have := Real.pi_pos
    rw [div_eq_iff (by norm_num : (6:ℝ) ≠ 0)] at hcontra
    linarith [hcontra]

/-- C2 counterexample: a Navigation Control tick whose snapshot has an
electrical fault — so `has_fault()` holds — but status RUNNING in automatic
mode does not write `(0, 0)` and does not skip control: it runs the PID
computation and stores its saturated output 1 as the acceleration command. -/
theorem C2_fault_tick_counterexample :
    c2State.has_fault ∧ (navTick c2Input).state.acceleration_cmd = 1 := by
  refine ⟨Or.inl rfl, ?_⟩
  simp only [navTick, c2Input, c2State, c2VelocityController, c2AngularController,
    VehicleState.is_automatic, VehicleState.is_manual, PIDController.compute,
    set_actuators, clampUnit]
  norm_num [min_def, max_def]
  rw [if_neg (show ¬ (VehicleStatus.RUNNING = VehicleStatus.EMERGENCY) by decide)]

/-- C2 (amended): a tick whose snapshot has status EMERGENCY skips the PID
control computation regardless of the fault bits, but does not by itself
write `(0, 0)`: the actuator commands become `(0, 0)` in that tick exactly
when an EMERGENCY_STOP event is pending in the event channel (which also
disables the controllers); with no pending event the stored commands are
left as they were.  `has_fault()` without EMERGENCY status (see the C2
counterexample) neither skips control nor zeroes the commands, so a fault
alone does not force the acceleration command to 0 within one tick. -/
theorem C2_emergency_tick (inp : NavInput)
    (hE : inp.state.status = VehicleStatus.EMERGENCY) :
    ((navTick inp).state.acceleration_cmd
        = (if inp.emergency_events = [] then inp.state.acceleration_cmd else 0) ∧
      (navTick inp).state.steering_cmd
        = (if inp.emergency_events = [] then inp.state.steering_cmd else 0)) ∧
    (inp.prev_mode_automatic = inp.state.is_automatic →
      (navTick inp).velocity_controller
        = (if inp.emergency_events = [] then inp.velocity_controller
            else inp.velocity_controller.disable)) := by
  have hns : ¬ (inp.state.is_automatic = true
      ∧ ¬ inp.state.status = VehicleStatus.EMERGENCY) := fun h => h.2 hE
  refine ⟨⟨?_, ?_⟩, ?_⟩
  · cases hq : inp.emergency_events with
    | nil =>
      by_cases hm : inp.state.is_manual <;>
        simp [navTick, hns, hq, hm, set_setpoints, set_actuators]
    | cons e rest =>
      simp [navTick, hns, hq, set_actuators]
  · cases hq : inp.emergency_events with
    | nil =>
      by_cases hm : inp.state.is_manual <;>
        simp [navTick, hns, hq, hm, set_setpoints, set_actuators]
    | cons e rest =>
      simp [navTick, hns, hq, set_actuators]
  · intro hp
    have hp1 : ¬ (inp.state.is_automatic = true ∧ inp.prev_mode_automatic = false) := by
      intro h
      rw [hp, h.1] at h
      exact absurd h.2 (by simp)
    have hp2 : ¬ (inp.state.is_automatic = false ∧ inp.prev_mode_automatic = true) := by
      intro h
      rw [hp, h.1] at h
      exact absurd h.2 (by simp)
    cases hq : inp.emergency_events with
    | nil =>
      by_cases hm : inp.state.is_manual <;>
        simp [navTick, hns, hq, hm, hp1, hp2]
    | cons e rest =>
      by_cases hm : inp.state.is_manual <;>
        simp [navTick, hns, hq, hm, hp1, hp2]

/-- C2 witness: a tick in EMERGENCY with no pending EMERGENCY_STOP event
skips control, leaves the stored acceleration command 0.7 untouched, and
leaves the velocity controller state unchanged. -/
theorem C2_emergency_tick_witness :
    c2EmergencyState.status = VehicleStatus.EMERGENCY ∧
    (navTick c2EmergencyInput).state.acceleration_cmd = 0.7 ∧
    (navTick c2EmergencyInput).velocity_controller = c2VelocityController := by
  have h := C2_emergency_tick c2EmergencyInput rfl
  refine ⟨rfl, ?_, ?_⟩
  · rw [h.1.1, if_pos (show c2EmergencyInput.emergency_events = [] from rfl)]
    rfl
  · rw [h.2 rfl, if_pos (show c2EmergencyInput.emergency_events = [] from rfl)]
    rfl
